import Mathlib

/-!
# CivicPulse front end (`frontend/src/App.js`): a shallow embedding

The component's pure helpers (`eventMarkers`, `getSafetyColor`, `getSafetyLabel`) become Lean
functions; the asynchronous handlers (`fetchEvents`, `calculateRoute`) become functions from the
component state and the outcomes of the external calls to the resulting state and the list of
external calls issued; the debounced `bounds_changed` effect becomes a small timer machine.

JavaScript numbers are modelled by `JSNum`: `NaN`, the two infinities and the finite values, the
latter as rationals (every finite double is a rational, and the only arithmetic the code performs
on scores is comparison with the constants 30 and 60).

Conventions of the embedding:

* a JSON field that is absent, `undefined` or `null` is `none`; the safety score and the
  coordinates of an event are numbers when present, identifiers and titles are strings;
* an exception is the message of its `Error`; a function that can raise returns the message in
  place of its value, and the state written before the exception is kept;
* the external world of a handler (geocoder, `fetch`, `response.json()`, the polyline decoder)
  is given by the outcome of each call, one outcome per call; the two uses of the geocoder in
  one run construct it one microtask apart, with no `await` in between, so a theorem about
  what follows a failed construction assumes that the failure persists;
* the geocoder, when it reports the status OK, passes an array of results; `first` is its
  first entry.
-/

set_option autoImplicit false

namespace CivicPulse

/-! ## JavaScript values -/

/-- A JavaScript number. -/
inductive JSNum where
  | nan : JSNum
  | negInf : JSNum
  | fin (q : ℚ) : JSNum
  | posInf : JSNum
  deriving DecidableEq, Repr

namespace JSNum

/-- The JavaScript comparison `a < b` on numbers (false as soon as one side is `NaN`). -/
def lt : JSNum → JSNum → Bool
  | nan, _ => false
  | _, nan => false
  | negInf, negInf => false
  | negInf, _ => true
  | fin _, negInf => false
  | fin a, fin b => decide (a < b)
  | fin _, posInf => true
  | posInf, _ => false

/-- The JavaScript comparison `a >= b` on numbers (false as soon as one side is `NaN`). -/
def ge : JSNum → JSNum → Bool
  | nan, _ => false
  | _, nan => false
  | a, b => !(lt a b)

/-- JavaScript truthiness of a number: `0` and `NaN` are falsy. -/
def truthy : JSNum → Bool
  | nan => false
  | fin q => decide (q ≠ 0)
  | _ => true

end JSNum

/-- Truthiness of a possibly missing number (`undefined` and `null` are falsy). -/
def numTruthy : Option JSNum → Bool
  | none => false
  | some x => x.truthy

/-- Truthiness of a possibly missing string (the empty string is falsy). -/
def strTruthy : Option String → Bool
  | none => false
  | some s => decide (s ≠ "")

/-! ## Events and markers -/

/-- The `coordinates` object of an event; a field that is absent is `none`. -/
structure Coordinates where
  lat : Option JSNum
  lng : Option JSNum
  deriving DecidableEq, Repr

/-- An event as delivered by `GET /events`; a field that is absent or `null` is `none`. -/
structure Event where
  _id : Option String
  title : Option String
  coordinates : Option Coordinates
  safety_score : Option JSNum
  deriving DecidableEq, Repr

/-- The value of `e._id || index`. -/
inductive MarkerId where
  | ofId (s : String) : MarkerId
  | ofIndex (n : Nat) : MarkerId
  deriving DecidableEq, Repr

/-- The object built for each event by `eventMarkers`. -/
structure Marker where
  id : MarkerId
  position : Coordinates
  score : JSNum
  color : String
  size : Nat
  title : String
  deriving DecidableEq, Repr

/-- The filter predicate `e => e.coordinates?.lat && e.coordinates?.lng`, as a truth value. -/
def hasCoordinates (e : Event) : Bool :=
  match e.coordinates with
  | none => false
  | some c => numTruthy c.lat && numTruthy c.lng

/-- The value of `e.safety_score || 50`. -/
def scoreOf (e : Event) : JSNum :=
  match e.safety_score with
  | none => JSNum.fin 50
  | some x => if x.truthy then x else JSNum.fin 50

/-- The colour and size chosen by the `if (score >= 60) ... else if (score >= 30) ...` of the
map callback, starting from green and 8. -/
def markerStyle (score : JSNum) : String × Nat :=
  if score.ge (JSNum.fin 60) then ("#f56565", 12)
  else if score.ge (JSNum.fin 30) then ("#ed8936", 10)
  else ("#48bb78", 8)

/-- The map callback `(e, index) => ({...})`. Reading `e.coordinates.lat` when `e.coordinates` is
missing raises a `TypeError`, rendered as `none`. -/
def toMarker (e : Event) (index : Nat) : Option Marker :=
  match e.coordinates with
  | none => none
  | some c =>
    let score := scoreOf e
    some
      { id := if strTruthy e._id then MarkerId.ofId (e._id.getD "") else MarkerId.ofIndex index
        position := { lat := c.lat, lng := c.lng }
        score := score
        color := (markerStyle score).1
        size := (markerStyle score).2
        title := if strTruthy e.title then e.title.getD "" else "Safety Event" }

/-- The array method `.map((e, index) => ...)` from a starting index; `none` when a callback
raises. -/
def mapWithIndex (f : Event → Nat → Option Marker) : List Event → Nat → Option (List Marker)
  | [], _ => some []
  | e :: es, i =>
    match f e i with
    | none => none
    | some m =>
      match mapWithIndex f es (i + 1) with
      | none => none
      | some ms => some (m :: ms)

/-- The memoised `eventMarkers`: `events.filter(...).map(...)`. -/
def eventMarkers (events : List Event) : Option (List Marker) :=
  mapWithIndex toMarker (events.filter hasCoordinates) 0

/-- The helper `getSafetyColor`. -/
def getSafetyColor (score : JSNum) : String :=
  if score.lt (JSNum.fin 30) then "#48bb78"
  else if score.lt (JSNum.fin 60) then "#ed8936"
  else "#f56565"

/-- The helper `getSafetyLabel`. -/
def getSafetyLabel (score : JSNum) : String :=
  if score.lt (JSNum.fin 30) then "Safe"
  else if score.lt (JSNum.fin 60) then "Moderate"
  else "High Risk"

/-! ## Component state and external calls -/

/-- A geographic point as plain numbers (`{ lat, lng }`). -/
structure LatLng where
  lat : JSNum
  lng : JSNum
  deriving DecidableEq, Repr

/-- The result of `map.getBounds()`. -/
structure LatLngBounds where
  ne : LatLng
  sw : LatLng
  deriving DecidableEq, Repr

/-- The map handle kept in the `map` state; `getBounds` is `none` while the map has no bounds. -/
structure MapHandle where
  getBounds : Option LatLngBounds
  deriving DecidableEq, Repr

/-- The JSON object of a `/route` response (success or error body); absent fields are `none`. -/
structure RouteJson where
  distance_meters : Option JSNum
  duration_seconds : Option JSNum
  aggregate_risk : Option JSNum
  event_count : Option JSNum
  polyline : Option String
  detail : Option String
  deriving DecidableEq, Repr

/-- The value stored by `setRoute({ ...routeData, decodedPath })`. -/
structure Route where
  data : RouteJson
  decodedPath : Option (List LatLng)
  deriving DecidableEq, Repr

/-- The JSON object of a `/events` response. -/
structure EventsJson where
  events : Option (List Event)
  deriving DecidableEq, Repr

/-- The `useState` cells of `App`. -/
structure AppState where
  events : List Event
  route : Option Route
  preference : String
  startLocation : String
  endLocation : String
  map : Option MapHandle
  loading : Bool
  error : Option String
  deriving DecidableEq, Repr

/-- The object passed to `JSON.stringify` for `POST /route`. -/
structure RouteRequest where
  start : LatLng
  end_ : LatLng
  mode : String
  alpha : JSNum
  beta : JSNum
  preference : String
  deriving DecidableEq, Repr

/-- An external call issued by a handler. -/
inductive Call where
  | geocode (address : String) : Call
  | getEvents (sw ne : LatLng) (since_hours : Nat) : Call
  | postRoute (body : RouteRequest) : Call
  deriving DecidableEq, Repr

/-- What one use of the geocoder does. -/
inductive GeocodeOutcome where
  /-- `new window.google.maps.Geocoder()` raises. -/
  | constructorThrows : GeocodeOutcome
  /-- `geocoder.geocode(...)` raises inside the promise executor. -/
  | geocodeThrows (msg : String) : GeocodeOutcome
  /-- The callback is invoked; `first` is the location of `results[0]` when there is one. -/
  | callback (statusOK : Bool) (first : Option LatLng) : GeocodeOutcome
  deriving DecidableEq, Repr

/-- What `await response.json()` does. -/
inductive JsonOutcome (α : Type) where
  | throws (msg : String) : JsonOutcome α
  | null : JsonOutcome α
  | value (a : α) : JsonOutcome α
  deriving DecidableEq, Repr

/-- What `await fetch(...)` does. -/
inductive FetchOutcome (α : Type) where
  | throws (msg : String) : FetchOutcome α
  | response (ok : Bool) (body : JsonOutcome α) : FetchOutcome α
  deriving DecidableEq, Repr

/-- The outcomes of the external calls of one run of `calculateRoute`. -/
structure RouteEnv where
  geocodeStart : GeocodeOutcome
  geocodeEnd : GeocodeOutcome
  routeFetch : FetchOutcome RouteJson
  geometryLoaded : Bool
  decodePath : String → Option (List LatLng)

/-- The result of running a handler: the state, the external calls issued in order, and the
exception that escaped, if any. -/
structure Run where
  state : AppState
  calls : List Call
  thrown : Option String
  deriving DecidableEq, Repr

/-- The message of the `TypeError` raised by reading a property of `null`. -/
def nullPropertyMessage (property : String) : String :=
  "Cannot read properties of null (reading \x27" ++ property ++ "\x27)"

/-- The handler `fetchEvents`. -/
def fetchEvents (s : AppState) (o : FetchOutcome EventsJson) : Run :=
  match s.map with
  | none => { state := s, calls := [], thrown := none }
  | some m =>
    match m.getBounds with
    | none => { state := s, calls := [], thrown := none }
    | some bounds =>
      let calls := [Call.getEvents bounds.sw bounds.ne 24]
      let failed : Run :=
        { state := { s with error := some "Failed to load safety events" }
          calls := calls, thrown := none }
      match o with
      | .throws _ => failed
      | .response _ (.throws _) => failed
      | .response _ .null => failed
      | .response _ (.value data) =>
        { state := { s with events := data.events.getD [] }, calls := calls, thrown := none }

/-- The helper `geocodeAddress`: the calls it issues and either the resolved value (`none` is
`null`) or the message of the error the returned promise rejects with. -/
def geocodeAddress (address : String) (o : GeocodeOutcome) :
    List Call × Except String (Option LatLng) :=
  if address = "" then ([], .ok none)
  else
    match o with
    | .constructorThrows => ([], .ok none)
    | .geocodeThrows msg => ([Call.geocode address], .error msg)
    | .callback true (some location) =>
      ([Call.geocode address], .ok (some { lat := location.lat, lng := location.lng }))
    | .callback _ _ => ([Call.geocode address], .error "Geocoding failed")

/-- The `try` block of `calculateRoute`, entered in state `s`. -/
def calculateRouteTry (s : AppState) (env : RouteEnv) : Run :=
  match geocodeAddress s.startLocation env.geocodeStart with
  | (c1, .error msg) => { state := s, calls := c1, thrown := some msg }
  | (c1, .ok start) =>
    match geocodeAddress s.endLocation env.geocodeEnd with
    | (c2, .error msg) => { state := s, calls := c1 ++ c2, thrown := some msg }
    | (c2, .ok end_) =>
      match start, end_ with
      | some start, some end_ =>
        let body : RouteRequest :=
          { start := start, end_ := end_, mode := "driving"
            alpha := JSNum.fin (1 / 2), beta := JSNum.fin (1 / 2), preference := s.preference }
        let calls := c1 ++ c2 ++ [Call.postRoute body]
        match env.routeFetch with
        | .throws msg => { state := s, calls := calls, thrown := some msg }
        | .response false (.throws msg) => { state := s, calls := calls, thrown := some msg }
        | .response false .null =>
          { state := s, calls := calls, thrown := some (nullPropertyMessage "detail") }
        | .response false (.value errorData) =>
          { state := s, calls := calls
            thrown := some (if strTruthy errorData.detail then errorData.detail.getD ""
                            else "Route calculation failed") }
        | .response true (.throws msg) => { state := s, calls := calls, thrown := some msg }
        | .response true .null =>
          { state := s, calls := calls, thrown := some (nullPropertyMessage "polyline") }
        | .response true (.value routeData) =>
          let decodedPath :=
            if strTruthy routeData.polyline && env.geometryLoaded
            then env.decodePath (routeData.polyline.getD "") else none
          { state := { s with route := some { data := routeData, decodedPath := decodedPath } }
            calls := calls, thrown := none }
      | _, _ =>
        { state := { s with error := some "Could not geocode one or both addresses"
                            loading := false }
          calls := c1 ++ c2, thrown := none }

/-- The handler `calculateRoute`: the validation, then `try`/`catch`/`finally`. -/
def calculateRoute (s : AppState) (env : RouteEnv) : Run :=
  if s.startLocation = "" ∨ s.endLocation = "" then
    { state := { s with error := some "Please enter both start and end locations" }
      calls := [], thrown := none }
  else
    let r := calculateRouteTry { s with loading := true, error := none } env
    match r.thrown with
    | some msg =>
      { state := { r.state with error := some (if msg ≠ "" then msg
                                              else "Failed to calculate route")
                                loading := false }
        calls := r.calls, thrown := none }
    | none => { state := { r.state with loading := false }, calls := r.calls, thrown := none }

/-! ## The debounced `bounds_changed` effect

Time is a logical clock in milliseconds. The host keeps a table of pending timers; a timer runs
its callback when the clock reaches its due time. The callback of the effect is `fetchEvents()`,
of which only the time of the call is recorded here. -/

/-- One instance of the effect together with the timers of the host. -/
structure Debounce where
  /-- The clock. -/
  now : Nat
  /-- The identifier the next `setTimeout` returns. -/
  nextId : Nat
  /-- The pending timers, as pairs of identifier and due time. -/
  pending : List (Nat × Nat)
  /-- The closure variable `timeoutId` (`none` is `undefined`). -/
  timeoutId : Option Nat
  /-- Whether the `bounds_changed` listener is registered. -/
  listening : Bool
  /-- The times at which a timer called `fetchEvents()`. -/
  fetchCalls : List Nat
  deriving DecidableEq, Repr

/-- What happens to the effect. -/
inductive Input where
  /-- The map emits `bounds_changed`. -/
  | boundsChanged : Input
  /-- The cleanup returned by the effect runs; `eventApi` tells whether
  `window.google?.maps?.event` is there. -/
  | cleanup (eventApi : Bool) : Input
  deriving DecidableEq, Repr

namespace Debounce

/-- The effect body with a loaded map at time `t0`: `let timeoutId;` and `map.addListener`. -/
def init (t0 nextId : Nat) : Debounce :=
  { now := t0, nextId := nextId, pending := [], timeoutId := none, listening := true
    fetchCalls := [] }

/-- The host function `clearTimeout(id)`. -/
def clearTimeout (id : Option Nat) (st : Debounce) : Debounce :=
  { st with pending := st.pending.filter fun p => decide (some p.1 ≠ id) }

/-- The host function `setTimeout(callback, delay)`, returning the new identifier. -/
def setTimeout (delay : Nat) (st : Debounce) : Nat × Debounce :=
  (st.nextId,
    { st with nextId := st.nextId + 1, pending := st.pending ++ [(st.nextId, st.now + delay)] })

/-- The clock moves to `t`: every pending timer due by then runs, at its due time. -/
def advance (t : Nat) (st : Debounce) : Debounce :=
  { st with
    now := max st.now t
    pending := st.pending.filter fun p => decide (t < p.2)
    fetchCalls := st.fetchCalls ++ (st.pending.filter fun p => decide (p.2 ≤ t)).map Prod.snd }

/-- The listener: `clearTimeout(timeoutId); timeoutId = setTimeout(() => fetchEvents(), 500)`. -/
def onBoundsChanged (st : Debounce) : Debounce :=
  if st.listening then
    let r := setTimeout 500 (clearTimeout st.timeoutId st)
    { r.2 with timeoutId := some r.1 }
  else st

/-- The cleanup: `clearTimeout(timeoutId)`, then `removeListener(listener)` when the event
interface is there. -/
def onCleanup (eventApi : Bool) (st : Debounce) : Debounce :=
  let st1 := clearTimeout st.timeoutId st
  if eventApi then { st1 with listening := false } else st1

/-- One input arriving at time `i.1`. -/
def step (st : Debounce) (i : Nat × Input) : Debounce :=
  match i.2 with
  | .boundsChanged => onBoundsChanged (advance i.1 st)
  | .cleanup eventApi => onCleanup eventApi (advance i.1 st)

/-- A sequence of timed inputs. -/
def run (st : Debounce) (inputs : List (Nat × Input)) : Debounce :=
  inputs.foldl step st

/-- The arrival times of a burst that starts at `t` and continues with the given gaps. -/
def arrivals (t : Nat) : List Nat → List Nat
  | [] => [t]
  | g :: gs => t :: arrivals (t + g) gs

/-- A burst of `bounds_changed` events. -/
def burst (t : Nat) (gaps : List Nat) : List (Nat × Input) :=
  (arrivals t gaps).map fun a => (a, Input.boundsChanged)

/-- Every pending timer is the one remembered in `timeoutId`. -/
def Tracked (st : Debounce) : Prop :=
  ∀ p ∈ st.pending, some p.1 = st.timeoutId

end Debounce

/-! ## Auxiliary definitions and concrete inputs -/

/-- An event with coordinates whose safety score is 0. -/
def zeroScoreEvent : Event :=
  { _id := some "e1", title := some "Quiet street"
    coordinates := some { lat := some (JSNum.fin 40), lng := some (JSNum.fin (-74)) }
    safety_score := some (JSNum.fin 0) }

/-- An event located on the equator: latitude 0, longitude 10. -/
def equatorEvent : Event :=
  { _id := some "e2", title := some "Incident"
    coordinates := some { lat := some (JSNum.fin 0), lng := some (JSNum.fin 10) }
    safety_score := some (JSNum.fin 75) }

/-- An event with coordinates and safety score 75, without identifier or title. -/
def riskyEvent : Event :=
  { _id := none, title := none
    coordinates := some { lat := some (JSNum.fin 40), lng := some (JSNum.fin (-74)) }
    safety_score := some (JSNum.fin 75) }

/-- A state with one event, a loaded map with bounds, and both locations entered. -/
def sampleState : AppState :=
  { events := [riskyEvent], route := none, preference := "fastest"
    startLocation := "Times Square", endLocation := "Central Park"
    map := some { getBounds := some { ne := { lat := JSNum.fin 41, lng := JSNum.fin (-73) }
                                      sw := { lat := JSNum.fin 40, lng := JSNum.fin (-75) } } }
    loading := false, error := none }

/-- The point the geocoder returns for the start location of `okEnv`. -/
def timesSquare : LatLng := { lat := JSNum.fin 40, lng := JSNum.fin (-74) }

/-- The point the geocoder returns for the end location of `okEnv`. -/
def centralPark : LatLng := { lat := JSNum.fin 41, lng := JSNum.fin (-73) }

/-- A JSON object with none of the fields the component reads. -/
def emptyRouteJson : RouteJson :=
  { distance_meters := none, duration_seconds := none, aggregate_risk := none
    event_count := none, polyline := none, detail := none }

/-- Both geocodes return a point and `/route` answers OK. -/
def okEnv : RouteEnv :=
  { geocodeStart := .callback true (some timesSquare)
    geocodeEnd := .callback true (some centralPark)
    routeFetch := .response true (.value emptyRouteJson)
    geometryLoaded := true
    decodePath := fun _ => some [] }

/-- Both geocodes return a point and `/route` answers with a non-OK response whose `detail` is the
empty string. -/
def rejectedRouteEnv : RouteEnv :=
  { okEnv with routeFetch := .response false (.value { emptyRouteJson with detail := some "" }) }

/-- The geocoder cannot be constructed, for either address. -/
def noGeocoderEnv : RouteEnv :=
  { okEnv with geocodeStart := .constructorThrows, geocodeEnd := .constructorThrows }

/-- The geocoder reports a status other than OK for the start location. -/
def startRejectedEnv : RouteEnv :=
  { okEnv with geocodeStart := .callback false none }

/-- The request object built by `calculateRoute` from two geocoded points. -/
def routeRequestOf (s : AppState) (a b : LatLng) : RouteRequest :=
  { start := a, end_ := b, mode := "driving"
    alpha := JSNum.fin (1 / 2), beta := JSNum.fin (1 / 2), preference := s.preference }

/-- A non-OK `/events` response whose JSON body has no `events` field. -/
def errorBodyResponse : FetchOutcome EventsJson :=
  .response false (.value { events := none })

/-! ## Theorems -/

/-- On every number other than `NaN` the cascade of the map callback and that of `getSafetyColor`
pick the same colour. -/
theorem markerStyle_fst_eq_getSafetyColor (x : JSNum) (hx : x ≠ JSNum.nan) :
    (markerStyle x).1 = getSafetyColor x := by
  cases x with
  | nan => exact absurd rfl hx
  | negInf => simp [markerStyle, getSafetyColor, JSNum.ge, JSNum.lt]
  | posInf => simp [markerStyle, getSafetyColor, JSNum.ge, JSNum.lt]
  | fin q =>
    simp only [markerStyle, getSafetyColor, JSNum.ge, JSNum.lt]
    by_cases h60 : q < 60
    · by_cases h30 : q < 30
      · simp [h60, h30]
      · simp [h60, h30]
    · have h30 : ¬ q < 30 := fun h => h60 (lt_trans h (by norm_num))
      simp [h60, h30]

/-- The score of a marker is never `NaN`: a falsy score is replaced by 50. -/
theorem scoreOf_ne_nan (e : Event) : scoreOf e ≠ JSNum.nan := by
  unfold scoreOf
  cases h : e.safety_score with
  | none => simp
  | some x =>
    cases x <;> simp [JSNum.truthy]
    split <;> simp

/-- The style of a marker is one of the three colour and size pairs. -/
theorem markerStyle_cases (x : JSNum) :
    markerStyle x = ("#f56565", 12) ∨ markerStyle x = ("#ed8936", 10) ∨
      markerStyle x = ("#48bb78", 8) := by
  unfold markerStyle
  split
  · exact Or.inl rfl
  · split
    · exact Or.inr (Or.inl rfl)
    · exact Or.inr (Or.inr rfl)

/-- On an event that passes the filter the map callback returns a marker, at the coordinates of
the event, with the defaulted score and the style of that score. -/
theorem toMarker_of_hasCoordinates (e : Event) (h : hasCoordinates e = true) (j : Nat) :
    ∃ m, toMarker e j = some m ∧ some m.position = e.coordinates ∧ m.score = scoreOf e ∧
      (m.color, m.size) = markerStyle (scoreOf e) := by
  unfold hasCoordinates at h
  unfold toMarker
  cases hc : e.coordinates with
  | none => simp [hc] at h
  | some c => exact ⟨_, rfl, rfl, rfl, rfl⟩

/-- Mapping a list of events that all pass the filter returns one marker per event, in order. -/
theorem mapWithIndex_toMarker (l : List Event) (h : ∀ e ∈ l, hasCoordinates e = true) (i : Nat) :
    ∃ ms, mapWithIndex toMarker l i = some ms ∧
      List.Forall₂ (fun e m => some m.position = e.coordinates ∧ m.score = scoreOf e ∧
        (m.color, m.size) = markerStyle (scoreOf e)) l ms := by
  induction l generalizing i with
  | nil => exact ⟨[], rfl, List.Forall₂.nil⟩
  | cons e es ih =>
    obtain ⟨m, hm, hprops⟩ := toMarker_of_hasCoordinates e (h e (List.mem_cons_self e es)) i
    obtain ⟨ms, hms, hall⟩ := ih (fun x hx => h x (List.mem_cons_of_mem e hx)) (i + 1)
    refine ⟨m :: ms, ?_, List.Forall₂.cons hprops hall⟩
    simp [mapWithIndex, hm, hms]

/-- The memoised `eventMarkers` returns one marker for each event that passes the filter, in the
order of the events, at the coordinates of the event. -/
theorem eventMarkers_pointwise (events : List Event) :
    ∃ ms, eventMarkers events = some ms ∧
      List.Forall₂ (fun e m => some m.position = e.coordinates ∧ m.score = scoreOf e ∧
        (m.color, m.size) = markerStyle (scoreOf e)) (events.filter hasCoordinates) ms :=
  mapWithIndex_toMarker _ (fun _ he => (List.mem_filter.mp he).2) 0

/-- An element of the right list of a pointwise relation has a partner in the left list. -/
theorem forall2_mem_right {α β : Type} {R : α → β → Prop} {l : List α} {ms : List β}
    (h : List.Forall₂ R l ms) {m : β} (hm : m ∈ ms) : ∃ e ∈ l, R e m := by
  induction h with
  | nil => cases hm
  | cons hr _ ih =>
    rcases List.mem_cons.mp hm with rfl | hm
    · exact ⟨_, List.mem_cons_self _ _, hr⟩
    · obtain ⟨e, he, hre⟩ := ih hm
      exact ⟨e, List.mem_cons_of_mem _ he, hre⟩

/-- C9: every marker built by `eventMarkers` has the colour `getSafetyColor` gives for the
marker's score, and its size goes with that colour: 12 with red, 10 with orange, 8 with green. -/
theorem eventMarkers_color_agrees (events : List Event) :
    ∃ ms, eventMarkers events = some ms ∧
      ∀ m ∈ ms, m.color = getSafetyColor m.score ∧
        ((m.color = "#f56565" ∧ m.size = 12) ∨ (m.color = "#ed8936" ∧ m.size = 10) ∨
          (m.color = "#48bb78" ∧ m.size = 8)) := by
  obtain ⟨ms, hms, hall⟩ := eventMarkers_pointwise events
  refine ⟨ms, hms, fun m hm => ?_⟩
  obtain ⟨e, _, _, hscore, hstyle⟩ := forall2_mem_right hall hm
  have hcolor : m.color = (markerStyle (scoreOf e)).1 := congrArg Prod.fst hstyle
  have hsize : m.size = (markerStyle (scoreOf e)).2 := congrArg Prod.snd hstyle
  refine ⟨?_, ?_⟩
  · rw [hcolor, hscore]
    exact markerStyle_fst_eq_getSafetyColor _ (scoreOf_ne_nan e)
  · rw [hcolor, hsize]
    rcases markerStyle_cases (scoreOf e) with h | h | h <;> simp [h]

/-- C9 at a concrete input: the marker of an event with score 75 is red, as `getSafetyColor 75`. -/
theorem eventMarkers_color_agrees_witness :
    eventMarkers [riskyEvent] = some
        [{ id := MarkerId.ofIndex 0
           position := { lat := some (JSNum.fin 40), lng := some (JSNum.fin (-74)) }
           score := JSNum.fin 75, color := "#f56565", size := 12, title := "Safety Event" }] ∧
      "#f56565" = getSafetyColor (JSNum.fin 75) := by
  obtain ⟨ms, hms, hall⟩ := eventMarkers_color_agrees [riskyEvent]
  have hval : eventMarkers [riskyEvent] = some
      [{ id := MarkerId.ofIndex 0
         position := { lat := some (JSNum.fin 40), lng := some (JSNum.fin (-74)) }
         score := JSNum.fin 75, color := "#f56565", size := 12, title := "Safety Event" }] := by
    decide
  refine ⟨hval, ?_⟩
  rw [hval] at hms
  have hms2 := Option.some.inj hms
  exact (hall _ (by rw [← hms2]; exact List.mem_cons_self _ _)).1

/-- C1 (evaluation at the diverging input): an event with coordinates and safety score 0 gets a
marker that carries score 50 with the orange colour and size 10, whereas `getSafetyColor` maps
score 0 to green. -/
theorem eventMarkers_zero_score :
    zeroScoreEvent.safety_score = some (JSNum.fin 0) ∧
      eventMarkers [zeroScoreEvent] = some
        [{ id := MarkerId.ofId "e1"
           position := { lat := some (JSNum.fin 40), lng := some (JSNum.fin (-74)) }
           score := JSNum.fin 50, color := "#ed8936", size := 10, title := "Quiet street" }] ∧
      getSafetyColor (JSNum.fin 0) = "#48bb78" := by
  decide

/-- For an event that passes the filter and carries a finite non-zero score `s`, the marker
carries `s` and is styled by the thresholds 60 and 30. -/
theorem marker_of_nonzero_score (e : Event) (s : ℚ) (hc : hasCoordinates e = true)
    (hs : e.safety_score = some (JSNum.fin s)) (h0 : s ≠ 0) (j : Nat) :
    ∃ m, toMarker e j = some m ∧ m.score = JSNum.fin s ∧
      (60 ≤ s → m.color = "#f56565" ∧ m.size = 12) ∧
      (30 ≤ s → s < 60 → m.color = "#ed8936" ∧ m.size = 10) ∧
      (s < 30 → m.color = "#48bb78" ∧ m.size = 8) := by
  obtain ⟨m, hm, _, hscore, hstyle⟩ := toMarker_of_hasCoordinates e hc j
  have hsc : scoreOf e = JSNum.fin s := by simp [scoreOf, hs, JSNum.truthy, h0]
  rw [hsc] at hscore hstyle
  have hcolor : m.color = (markerStyle (JSNum.fin s)).1 := congrArg Prod.fst hstyle
  have hsize : m.size = (markerStyle (JSNum.fin s)).2 := congrArg Prod.snd hstyle
  refine ⟨m, hm, hscore, ?_, ?_, ?_⟩
  · intro h
    have : ¬ s < 60 := not_lt.mpr h
    simp [hcolor, hsize, markerStyle, JSNum.ge, JSNum.lt, this]
  · intro h1 h2
    have : ¬ s < 30 := not_lt.mpr h1
    simp [hcolor, hsize, markerStyle, JSNum.ge, JSNum.lt, this, h2]
  · intro h
    have : s < 60 := lt_trans h (by norm_num)
    simp [hcolor, hsize, markerStyle, JSNum.ge, JSNum.lt, this, h]

/-- C10 (evaluation at the diverging input): an event that has both a latitude and a longitude,
the latitude being 0, gets no marker. -/
theorem eventMarkers_latitude_zero :
    equatorEvent.coordinates = some { lat := some (JSNum.fin 0), lng := some (JSNum.fin 10) } ∧
      eventMarkers [equatorEvent] = some [] := by
  decide

/-- C2: `getSafetyLabel` and `getSafetyColor` use the same bands. A score of at least 60 gives
High Risk and red, a score from 30 up to but excluding 60 gives Moderate and orange, a score
below 30 gives Safe and green; every score falls in exactly one band, the result is always one
of the three pairs, the label is Safe exactly when the colour is green and High Risk exactly when
it is red. -/
theorem safety_bands (q : ℚ) :
    (60 ≤ q → getSafetyLabel (JSNum.fin q) = "High Risk" ∧
        getSafetyColor (JSNum.fin q) = "#f56565") ∧
      (30 ≤ q ∧ q < 60 → getSafetyLabel (JSNum.fin q) = "Moderate" ∧
        getSafetyColor (JSNum.fin q) = "#ed8936") ∧
      (q < 30 → getSafetyLabel (JSNum.fin q) = "Safe" ∧
        getSafetyColor (JSNum.fin q) = "#48bb78") ∧
      ((60 ≤ q ∧ ¬ (30 ≤ q ∧ q < 60) ∧ ¬ q < 30) ∨ (¬ 60 ≤ q ∧ (30 ≤ q ∧ q < 60) ∧ ¬ q < 30) ∨
        (¬ 60 ≤ q ∧ ¬ (30 ≤ q ∧ q < 60) ∧ q < 30)) ∧
      (∀ score : JSNum,
        ((getSafetyLabel score = "High Risk" ∧ getSafetyColor score = "#f56565") ∨
          (getSafetyLabel score = "Moderate" ∧ getSafetyColor score = "#ed8936") ∨
          (getSafetyLabel score = "Safe" ∧ getSafetyColor score = "#48bb78")) ∧
        (getSafetyLabel score = "Safe" ↔ getSafetyColor score = "#48bb78") ∧
        (getSafetyLabel score = "High Risk" ↔ getSafetyColor score = "#f56565")) := by
  refine ⟨?_, ?_, ?_, ?_, ?_⟩
  · intro h
    have h60 : ¬ q < 60 := not_lt.mpr h
    have h30 : ¬ q < 30 := fun h' => h60 (lt_trans h' (by norm_num))
    simp [getSafetyLabel, getSafetyColor, JSNum.lt, h60, h30]
  · rintro ⟨h1, h2⟩
    have h30 : ¬ q < 30 := not_lt.mpr h1
    simp [getSafetyLabel, getSafetyColor, JSNum.lt, h2, h30]
  · intro h
    simp [getSafetyLabel, getSafetyColor, JSNum.lt, h]
  · by_cases h60 : 60 ≤ q
    · left
      refine ⟨h60, fun h => absurd h.2 (not_lt.mpr h60), ?_⟩
      exact fun h => absurd (lt_trans h (by norm_num)) (not_lt.mpr h60)
    · by_cases h30 : 30 ≤ q
      · right; left
        exact ⟨h60, ⟨h30, not_le.mp h60⟩, not_lt.mpr h30⟩
      · right; right
        exact ⟨h60, fun h => h30 h.1, not_le.mp h30⟩
  · intro score
    unfold getSafetyLabel getSafetyColor
    split
    · simp
    · split <;> simp

/-- C2 at scores 75, 45 and 10. -/
theorem safety_bands_witness :
    (getSafetyLabel (JSNum.fin 75) = "High Risk" ∧ getSafetyColor (JSNum.fin 75) = "#f56565") ∧
      (getSafetyLabel (JSNum.fin 45) = "Moderate" ∧ getSafetyColor (JSNum.fin 45) = "#ed8936") ∧
      (getSafetyLabel (JSNum.fin 10) = "Safe" ∧ getSafetyColor (JSNum.fin 10) = "#48bb78") :=
  ⟨(safety_bands 75).1 (by norm_num), (safety_bands 45).2.1 (by norm_num),
    (safety_bands 10).2.2.1 (by norm_num)⟩

/-- No exception escapes `calculateRoute`. -/
theorem calculateRoute_thrown (s : AppState) (env : RouteEnv) :
    (calculateRoute s env).thrown = none := by
  unfold calculateRoute
  split
  · rfl
  · dsimp only
    split <;> rfl

/-- C3: when the start or the end location is the empty string, `calculateRoute` only sets the
error to the validation message: no geocoding, no request, and route, loading, events and
preference (like every other state cell) keep their values. -/
theorem calculateRoute_empty_location (s : AppState) (env : RouteEnv)
    (h : s.startLocation = "" ∨ s.endLocation = "") :
    calculateRoute s env =
        { state := { s with error := some "Please enter both start and end locations" }
          calls := [], thrown := none } ∧
      (calculateRoute s env).state.route = s.route ∧
      (calculateRoute s env).state.loading = s.loading ∧
      (calculateRoute s env).state.events = s.events ∧
      (calculateRoute s env).state.preference = s.preference := by
  have hrun : calculateRoute s env =
      { state := { s with error := some "Please enter both start and end locations" }
        calls := [], thrown := none } := by
    unfold calculateRoute
    rw [if_pos h]
  rw [hrun]
  exact ⟨rfl, rfl, rfl, rfl, rfl⟩

/-- C3 at a state whose end location is empty. -/
theorem calculateRoute_empty_location_witness :
    calculateRoute { sampleState with endLocation := "" } okEnv =
        { state := { { sampleState with endLocation := "" } with
                     error := some "Please enter both start and end locations" }
          calls := [], thrown := none } ∧
      (calculateRoute { sampleState with endLocation := "" } okEnv).state.route = none :=
  ⟨(calculateRoute_empty_location { sampleState with endLocation := "" } okEnv
      (Or.inr rfl)).1,
    (calculateRoute_empty_location { sampleState with endLocation := "" } okEnv
      (Or.inr rfl)).2.1⟩

/-- The three results of `geocodeAddress`: `null` without a request, a rejection after a
request, or coordinates after a request. -/
theorem geocodeAddress_cases (a : String) (o : GeocodeOutcome) :
    geocodeAddress a o = ([], .ok none) ∨
      (∃ msg, geocodeAddress a o = ([Call.geocode a], .error msg)) ∨
      (∃ loc, geocodeAddress a o = ([Call.geocode a], .ok (some loc))) := by
  unfold geocodeAddress
  split
  · exact Or.inl rfl
  · split
    · exact Or.inl rfl
    · exact Or.inr (Or.inl ⟨_, rfl⟩)
    · exact Or.inr (Or.inr ⟨_, rfl⟩)
    · exact Or.inr (Or.inl ⟨_, rfl⟩)

/-- The `try` block when the geocoding of the start location is rejected. -/
theorem try_start_rejected (s : AppState) (env : RouteEnv) (c1 : List Call) (msg : String)
    (h1 : geocodeAddress s.startLocation env.geocodeStart = (c1, .error msg)) :
    calculateRouteTry s env = { state := s, calls := c1, thrown := some msg } := by
  simp only [calculateRouteTry, h1]

/-- The `try` block when the geocoding of the end location is rejected. -/
theorem try_end_rejected (s : AppState) (env : RouteEnv) (c1 c2 : List Call)
    (start : Option LatLng) (msg : String)
    (h1 : geocodeAddress s.startLocation env.geocodeStart = (c1, .ok start))
    (h2 : geocodeAddress s.endLocation env.geocodeEnd = (c2, .error msg)) :
    calculateRouteTry s env = { state := s, calls := c1 ++ c2, thrown := some msg } := by
  simp only [calculateRouteTry, h1, h2]

/-- The `try` block when one of the two geocodes returned `null`. -/
theorem try_null (s : AppState) (env : RouteEnv) (c1 c2 : List Call)
    (start end_ : Option LatLng)
    (h1 : geocodeAddress s.startLocation env.geocodeStart = (c1, .ok start))
    (h2 : geocodeAddress s.endLocation env.geocodeEnd = (c2, .ok end_))
    (hnull : start = none ∨ end_ = none) :
    calculateRouteTry s env =
      { state := { s with error := some "Could not geocode one or both addresses"
                          loading := false }
        calls := c1 ++ c2, thrown := none } := by
  simp only [calculateRouteTry, h1, h2]
  rcases hnull with rfl | rfl
  · rfl
  · cases start <;> rfl

/-- The `try` block when both geocodes returned coordinates: the request is posted, and either an
error is raised with the state untouched or the response is OK and the route is stored. -/
theorem try_posted (s : AppState) (env : RouteEnv) (c1 c2 : List Call) (a b : LatLng)
    (h1 : geocodeAddress s.startLocation env.geocodeStart = (c1, .ok (some a)))
    (h2 : geocodeAddress s.endLocation env.geocodeEnd = (c2, .ok (some b))) :
    (calculateRouteTry s env).calls = c1 ++ c2 ++ [Call.postRoute (routeRequestOf s a b)] ∧
      ((∃ msg, (calculateRouteTry s env).thrown = some msg ∧
          (calculateRouteTry s env).state = s) ∨
        (∃ routeData, env.routeFetch = .response true (.value routeData) ∧
          (calculateRouteTry s env).thrown = none ∧
          ∃ route, (calculateRouteTry s env).state = { s with route := some route })) := by
  simp only [calculateRouteTry, h1, h2, routeRequestOf]
  split
  · exact ⟨rfl, Or.inl ⟨_, rfl, rfl⟩⟩
  · exact ⟨rfl, Or.inl ⟨_, rfl, rfl⟩⟩
  · exact ⟨rfl, Or.inl ⟨_, rfl, rfl⟩⟩
  · exact ⟨rfl, Or.inl ⟨_, rfl, rfl⟩⟩
  · exact ⟨rfl, Or.inl ⟨_, rfl, rfl⟩⟩
  · exact ⟨rfl, Or.inl ⟨_, rfl, rfl⟩⟩
  · rename_i routeData hfetch
    exact ⟨rfl, Or.inr ⟨routeData, hfetch, rfl, _, rfl⟩⟩

/-- The run of `calculateRoute` when the `try` block raises. -/
theorem calculateRoute_of_thrown (s : AppState) (env : RouteEnv)
    (hs : s.startLocation ≠ "") (he : s.endLocation ≠ "") (msg : String)
    (ht : (calculateRouteTry { s with loading := true, error := none } env).thrown = some msg) :
    calculateRoute s env =
      { state := { (calculateRouteTry { s with loading := true, error := none } env).state with
                   error := some (if msg ≠ "" then msg else "Failed to calculate route")
                   loading := false }
        calls := (calculateRouteTry { s with loading := true, error := none } env).calls
        thrown := none } := by
  unfold calculateRoute
  rw [if_neg (by simp [hs, he])]
  simp only [ht]

/-- The run of `calculateRoute` when the `try` block completes or returns. -/
theorem calculateRoute_of_returned (s : AppState) (env : RouteEnv)
    (hs : s.startLocation ≠ "") (he : s.endLocation ≠ "")
    (ht : (calculateRouteTry { s with loading := true, error := none } env).thrown = none) :
    calculateRoute s env =
      { state := { (calculateRouteTry { s with loading := true, error := none } env).state with
                   loading := false }
        calls := (calculateRouteTry { s with loading := true, error := none } env).calls
        thrown := none } := by
  unfold calculateRoute
  rw [if_neg (by simp [hs, he])]
  simp only [ht]

/-- The string stored by the `catch` block, `err.message || ...`, is never empty. -/
theorem caught_message_ne_empty (msg : String) :
    (if msg ≠ "" then msg else "Failed to calculate route") ≠ "" := by
  split
  · assumption
  · decide

/-- C4: with both locations entered, when a geocoding call does not yield coordinates, or the
route fetch raises, or the route response is not OK, `calculateRoute` ends without an exception
escaping, with a non-empty error string, with loading false, and with the route untouched. -/
theorem calculateRoute_failure_caught (s : AppState) (env : RouteEnv)
    (hs : s.startLocation ≠ "") (he : s.endLocation ≠ "")
    (hfail :
      (∀ loc, (geocodeAddress s.startLocation env.geocodeStart).2 ≠ .ok (some loc)) ∨
      (∀ loc, (geocodeAddress s.endLocation env.geocodeEnd).2 ≠ .ok (some loc)) ∨
      (∃ msg, env.routeFetch = .throws msg) ∨
      (∃ body, env.routeFetch = .response false body)) :
    (calculateRoute s env).thrown = none ∧
      (∃ msg, (calculateRoute s env).state.error = some msg ∧ msg ≠ "") ∧
      (calculateRoute s env).state.loading = false ∧
      (calculateRoute s env).state.route = s.route := by
  have key : ∀ r : Run,
      ((∃ msg, r.thrown = some msg ∧ r.state = { s with loading := true, error := none }) ∨
        (r.thrown = none ∧
          r.state = { ({ s with loading := true, error := none } : AppState) with
                      error := some "Could not geocode one or both addresses"
                      loading := false })) →
      calculateRouteTry { s with loading := true, error := none } env = r →
      (calculateRoute s env).thrown = none ∧
        (∃ msg, (calculateRoute s env).state.error = some msg ∧ msg ≠ "") ∧
        (calculateRoute s env).state.loading = false ∧
        (calculateRoute s env).state.route = s.route := by
    intro r hr hrun
    rcases hr with ⟨msg, ht, hst⟩ | ⟨ht, hst⟩
    · rw [calculateRoute_of_thrown s env hs he msg (by rw [hrun]; exact ht), hrun, hst]
      exact ⟨rfl, ⟨_, rfl, caught_message_ne_empty msg⟩, rfl, rfl⟩
    · rw [calculateRoute_of_returned s env hs he (by rw [hrun]; exact ht), hrun, hst]
      exact ⟨rfl, ⟨_, rfl, by decide⟩, rfl, rfl⟩
  rcases geocodeAddress_cases s.startLocation env.geocodeStart with h1 | ⟨m1, h1⟩ | ⟨a, h1⟩
  · rcases geocodeAddress_cases s.endLocation env.geocodeEnd with h2 | ⟨m2, h2⟩ | ⟨b, h2⟩
    · exact key _ (Or.inr ⟨rfl, rfl⟩)
        (try_null { s with loading := true, error := none } env _ _ _ _ h1 h2 (Or.inl rfl))
    · exact key _ (Or.inl ⟨_, rfl, rfl⟩)
        (try_end_rejected { s with loading := true, error := none } env _ _ _ _ h1 h2)
    · exact key _ (Or.inr ⟨rfl, rfl⟩)
        (try_null { s with loading := true, error := none } env _ _ _ _ h1 h2 (Or.inl rfl))
  · exact key _ (Or.inl ⟨_, rfl, rfl⟩)
      (try_start_rejected { s with loading := true, error := none } env _ _ h1)
  · rcases geocodeAddress_cases s.endLocation env.geocodeEnd with h2 | ⟨m2, h2⟩ | ⟨b, h2⟩
    · exact key _ (Or.inr ⟨rfl, rfl⟩)
        (try_null { s with loading := true, error := none } env _ _ _ _ h1 h2 (Or.inr rfl))
    · exact key _ (Or.inl ⟨_, rfl, rfl⟩)
        (try_end_rejected { s with loading := true, error := none } env _ _ _ _ h1 h2)
    · obtain ⟨_, hres⟩ := try_posted { s with loading := true, error := none } env _ _ a b h1 h2
      rcases hres with ⟨msg, ht, hst⟩ | ⟨routeData, hfetch, _, _⟩
      · exact key _ (Or.inl ⟨msg, ht, hst⟩) rfl
      · exfalso
        rcases hfail with hf | hf | ⟨msg, hf⟩ | ⟨body, hf⟩
        · exact hf a (by rw [h1])
        · exact hf b (by rw [h2])
        · rw [hfetch] at hf; cases hf
        · rw [hfetch] at hf; cases hf

/-- C4 at a run whose `/route` response is not OK and carries an empty `detail`. -/
theorem calculateRoute_failure_caught_witness :
    (calculateRoute sampleState rejectedRouteEnv).thrown = none ∧
      (∃ msg, (calculateRoute sampleState rejectedRouteEnv).state.error = some msg ∧ msg ≠ "") ∧
      (calculateRoute sampleState rejectedRouteEnv).state.loading = false ∧
      (calculateRoute sampleState rejectedRouteEnv).state.route = sampleState.route :=
  calculateRoute_failure_caught sampleState rejectedRouteEnv (by decide) (by decide)
    (Or.inr (Or.inr (Or.inr ⟨_, rfl⟩)))

/-- With both locations entered, the calls of a run are those of its `try` block. -/
theorem calculateRoute_calls (s : AppState) (env : RouteEnv)
    (hs : s.startLocation ≠ "") (he : s.endLocation ≠ "") :
    (calculateRoute s env).calls =
      (calculateRouteTry { s with loading := true, error := none } env).calls := by
  cases ht : (calculateRouteTry { s with loading := true, error := none } env).thrown with
  | none => rw [calculateRoute_of_returned s env hs he ht]
  | some msg => rw [calculateRoute_of_thrown s env hs he msg ht]

/-- With a location missing, a run issues no call. -/
theorem calculateRoute_calls_empty (s : AppState) (env : RouteEnv)
    (h : s.startLocation = "" ∨ s.endLocation = "") : (calculateRoute s env).calls = [] := by
  unfold calculateRoute
  rw [if_pos h]

/-- The calls of a run, by the results of the two uses of `geocodeAddress`. -/
theorem calculateRoute_calls_cases (s : AppState) (env : RouteEnv) :
    ((s.startLocation = "" ∨ s.endLocation = "") ∧ (calculateRoute s env).calls = []) ∨
    (∃ c1 msg, geocodeAddress s.startLocation env.geocodeStart = (c1, .error msg) ∧
      (calculateRoute s env).calls = c1) ∨
    (∃ c1 c2 start msg, geocodeAddress s.startLocation env.geocodeStart = (c1, .ok start) ∧
      geocodeAddress s.endLocation env.geocodeEnd = (c2, .error msg) ∧
      (calculateRoute s env).calls = c1 ++ c2) ∨
    (∃ c1 c2 start end_, geocodeAddress s.startLocation env.geocodeStart = (c1, .ok start) ∧
      geocodeAddress s.endLocation env.geocodeEnd = (c2, .ok end_) ∧
      (start = none ∨ end_ = none) ∧ (calculateRoute s env).calls = c1 ++ c2) ∨
    (∃ a b, s.startLocation ≠ "" ∧ s.endLocation ≠ "" ∧
      geocodeAddress s.startLocation env.geocodeStart =
        ([Call.geocode s.startLocation], .ok (some a)) ∧
      geocodeAddress s.endLocation env.geocodeEnd =
        ([Call.geocode s.endLocation], .ok (some b)) ∧
      (calculateRoute s env).calls =
        [Call.geocode s.startLocation, Call.geocode s.endLocation,
          Call.postRoute (routeRequestOf s a b)]) := by
  by_cases hempty : s.startLocation = "" ∨ s.endLocation = ""
  · exact Or.inl ⟨hempty, calculateRoute_calls_empty s env hempty⟩
  · have hs : s.startLocation ≠ "" := fun h => hempty (Or.inl h)
    have he : s.endLocation ≠ "" := fun h => hempty (Or.inr h)
    rw [calculateRoute_calls s env hs he]
    rcases geocodeAddress_cases s.startLocation env.geocodeStart with h1 | ⟨m1, h1⟩ | ⟨a, h1⟩
    · rcases geocodeAddress_cases s.endLocation env.geocodeEnd with h2 | ⟨m2, h2⟩ | ⟨b, h2⟩
      · refine Or.inr (Or.inr (Or.inr (Or.inl ⟨_, _, _, _, h1, h2, Or.inl rfl, ?_⟩)))
        rw [try_null { s with loading := true, error := none } env _ _ _ _ h1 h2 (Or.inl rfl)]
      · refine Or.inr (Or.inr (Or.inl ⟨_, _, _, _, h1, h2, ?_⟩))
        rw [try_end_rejected { s with loading := true, error := none } env _ _ _ _ h1 h2]
      · refine Or.inr (Or.inr (Or.inr (Or.inl ⟨_, _, _, _, h1, h2, Or.inl rfl, ?_⟩)))
        rw [try_null { s with loading := true, error := none } env _ _ _ _ h1 h2 (Or.inl rfl)]
    · refine Or.inr (Or.inl ⟨_, _, h1, ?_⟩)
      rw [try_start_rejected { s with loading := true, error := none } env _ _ h1]
    · rcases geocodeAddress_cases s.endLocation env.geocodeEnd with h2 | ⟨m2, h2⟩ | ⟨b, h2⟩
      · refine Or.inr (Or.inr (Or.inr (Or.inl ⟨_, _, _, _, h1, h2, Or.inr rfl, ?_⟩)))
        rw [try_null { s with loading := true, error := none } env _ _ _ _ h1 h2 (Or.inr rfl)]
      · refine Or.inr (Or.inr (Or.inl ⟨_, _, _, _, h1, h2, ?_⟩))
        rw [try_end_rejected { s with loading := true, error := none } env _ _ _ _ h1 h2]
      · refine Or.inr (Or.inr (Or.inr (Or.inr ⟨a, b, hs, he, h1, h2, ?_⟩)))
        rw [(try_posted { s with loading := true, error := none } env _ _ a b h1 h2).1]
        rfl

/-- One use of `geocodeAddress` issues at most one request, for its address. -/
theorem geocodeAddress_calls (a : String) (o : GeocodeOutcome) (c : List Call)
    (r : Except String (Option LatLng)) (h : geocodeAddress a o = (c, r)) :
    c = [] ∨ c = [Call.geocode a] := by
  rcases geocodeAddress_cases a o with h' | ⟨_, h'⟩ | ⟨_, h'⟩ <;> rw [h'] at h <;> cases h
  · exact Or.inl rfl
  · exact Or.inr rfl
  · exact Or.inr rfl

/-- A rejected geocode did issue its request. -/
theorem geocodeAddress_error_calls (a : String) (o : GeocodeOutcome) (c : List Call)
    (msg : String) (h : geocodeAddress a o = (c, .error msg)) : c = [Call.geocode a] := by
  rcases geocodeAddress_cases a o with h' | ⟨_, h'⟩ | ⟨_, h'⟩ <;> rw [h'] at h <;> cases h
  · rfl

/-- A run posts `body` to `/route` exactly when both locations are entered, both geocodes return
coordinates and `body` is built from them; the request is then the third and last call. -/
theorem postRoute_mem_iff (s : AppState) (env : RouteEnv) (body : RouteRequest) :
    Call.postRoute body ∈ (calculateRoute s env).calls ↔
      ∃ a b, s.startLocation ≠ "" ∧ s.endLocation ≠ "" ∧
        (geocodeAddress s.startLocation env.geocodeStart).2 = .ok (some a) ∧
        (geocodeAddress s.endLocation env.geocodeEnd).2 = .ok (some b) ∧
        body = { start := a, end_ := b, mode := "driving", alpha := JSNum.fin (1 / 2)
                 beta := JSNum.fin (1 / 2), preference := s.preference } ∧
        (calculateRoute s env).calls =
          [Call.geocode s.startLocation, Call.geocode s.endLocation, Call.postRoute body] := by
  rcases calculateRoute_calls_cases s env with
    ⟨hempty, hc⟩ | ⟨c1, msg, h1, hc⟩ | ⟨c1, c2, start, msg, h1, h2, hc⟩ |
    ⟨c1, c2, start, end_, h1, h2, hnull, hc⟩ | ⟨a, b, hs, he, h1, h2, hc⟩
  · constructor
    · intro h; rw [hc] at h; cases h
    · rintro ⟨_, _, hs, he, _⟩
      rcases hempty with h | h
      · exact absurd h hs
      · exact absurd h he
  · constructor
    · intro h
      rw [hc, geocodeAddress_error_calls _ _ _ _ h1] at h
      simp at h
    · rintro ⟨_, _, _, _, h, _⟩
      rw [h1] at h; cases h
  · constructor
    · intro h
      rw [hc, geocodeAddress_error_calls _ _ _ _ h2] at h
      rcases geocodeAddress_calls _ _ _ _ h1 with rfl | rfl <;> simp at h
    · rintro ⟨_, _, _, _, _, h, _⟩
      rw [h2] at h; cases h
  · constructor
    · intro h
      rw [hc] at h
      rcases geocodeAddress_calls _ _ _ _ h1 with rfl | rfl <;>
        rcases geocodeAddress_calls _ _ _ _ h2 with rfl | rfl <;> simp at h
    · rintro ⟨_, _, _, _, h, h', _⟩
      rw [h1] at h
      rw [h2] at h'
      rcases hnull with rfl | rfl
      · cases h
      · cases h'
  · constructor
    · intro h
      rw [hc] at h
      simp at h
      subst h
      exact ⟨a, b, hs, he, by rw [h1], by rw [h2], rfl, hc⟩
    · rintro ⟨_, _, _, _, _, _, _, hcalls⟩
      rw [hcalls]
      simp

/-- C6: the body posted to `/route` is the object with `start` and `end` the coordinates
geocoded from the start and the end location, in that order, `mode` driving, `alpha` and `beta`
one half, and `preference` the selected preference; a run posts it exactly when both locations
are entered and both geocodes return coordinates, as its third and last call. -/
theorem route_request_body (s : AppState) (env : RouteEnv) (body : RouteRequest) :
    Call.postRoute body ∈ (calculateRoute s env).calls ↔
      ∃ a b, s.startLocation ≠ "" ∧ s.endLocation ≠ "" ∧
        (geocodeAddress s.startLocation env.geocodeStart).2 = .ok (some a) ∧
        (geocodeAddress s.endLocation env.geocodeEnd).2 = .ok (some b) ∧
        body = { start := a, end_ := b, mode := "driving", alpha := JSNum.fin (1 / 2)
                 beta := JSNum.fin (1 / 2), preference := s.preference } ∧
        (calculateRoute s env).calls =
          [Call.geocode s.startLocation, Call.geocode s.endLocation, Call.postRoute body] :=
  postRoute_mem_iff s env body

/-- C6 at a run in which both geocodes succeed. -/
theorem route_request_body_witness :
    Call.postRoute { start := timesSquare, end_ := centralPark, mode := "driving"
                     alpha := JSNum.fin (1 / 2), beta := JSNum.fin (1 / 2)
                     preference := "fastest" } ∈ (calculateRoute sampleState okEnv).calls :=
  (route_request_body sampleState okEnv _).mpr
    ⟨timesSquare, centralPark, by decide, by decide, rfl, rfl, rfl, rfl⟩

/-- With both locations entered, `geocodeAddress` returns `null` only when the geocoder cannot
be constructed, and then issues no request. -/
theorem geocodeAddress_cases_entered (a : String) (o : GeocodeOutcome) (ha : a ≠ "") :
    (o = .constructorThrows ∧ geocodeAddress a o = ([], .ok none)) ∨
      (∃ msg, geocodeAddress a o = ([Call.geocode a], .error msg)) ∨
      (∃ loc, geocodeAddress a o = ([Call.geocode a], .ok (some loc))) := by
  unfold geocodeAddress
  rw [if_neg ha]
  split
  · exact Or.inl ⟨rfl, rfl⟩
  · exact Or.inr (Or.inl ⟨_, rfl⟩)
  · exact Or.inr (Or.inr ⟨_, rfl⟩)
  · exact Or.inr (Or.inl ⟨_, rfl⟩)

/-- The calls of a run when a geocoder that cannot be constructed for the start location cannot
be constructed for the end location either: nothing or the geocoding of the start alone when the
start yields no coordinates, and otherwise a prefix of the three calls that begins with the
geocoding of the start. -/
theorem calculateRoute_calls_persistent (s : AppState) (env : RouteEnv)
    (hpersist : env.geocodeStart = .constructorThrows → env.geocodeEnd = .constructorThrows) :
    ((calculateRoute s env).calls = [] ∨
        (calculateRoute s env).calls = [Call.geocode s.startLocation]) ∨
      ((∃ a, (geocodeAddress s.startLocation env.geocodeStart).2 = .ok (some a)) ∧
        ((calculateRoute s env).calls = [Call.geocode s.startLocation] ∨
          (calculateRoute s env).calls =
            [Call.geocode s.startLocation, Call.geocode s.endLocation] ∨
          ∃ body, (calculateRoute s env).calls =
            [Call.geocode s.startLocation, Call.geocode s.endLocation,
              Call.postRoute body])) := by
  by_cases hempty : s.startLocation = "" ∨ s.endLocation = ""
  · exact Or.inl (Or.inl (calculateRoute_calls_empty s env hempty))
  · have hs : s.startLocation ≠ "" := fun h => hempty (Or.inl h)
    have he : s.endLocation ≠ "" := fun h => hempty (Or.inr h)
    rw [calculateRoute_calls s env hs he]
    rcases geocodeAddress_cases_entered s.startLocation env.geocodeStart hs with
      ⟨ho, h1⟩ | ⟨m1, h1⟩ | ⟨a, h1⟩
    · have h2 : geocodeAddress s.endLocation env.geocodeEnd = ([], .ok none) := by
        rw [hpersist ho]
        unfold geocodeAddress
        rw [if_neg he]
      rw [try_null { s with loading := true, error := none } env _ _ _ _ h1 h2 (Or.inl rfl)]
      exact Or.inl (Or.inl rfl)
    · rw [try_start_rejected { s with loading := true, error := none } env _ _ h1]
      exact Or.inl (Or.inr rfl)
    · refine Or.inr ⟨⟨a, by rw [h1]⟩, ?_⟩
      rcases geocodeAddress_cases_entered s.endLocation env.geocodeEnd he with
        ⟨_, h2⟩ | ⟨m2, h2⟩ | ⟨b, h2⟩
      · rw [try_null { s with loading := true, error := none } env _ _ _ _ h1 h2 (Or.inr rfl)]
        exact Or.inl rfl
      · rw [try_end_rejected { s with loading := true, error := none } env _ _ _ _ h1 h2]
        exact Or.inr (Or.inl rfl)
      · rw [(try_posted { s with loading := true, error := none } env _ _ a b h1 h2).1]
        exact Or.inr (Or.inr ⟨_, rfl⟩)

/-- C7: in every run of `calculateRoute` the external calls are an initial part of the sequence
geocode start, geocode end, POST `/route`, each issued only after the previous one returned; when
the geocoding of the start location fails (it returns `null` or is rejected) the end location is
not geocoded; and `/route` is requested only when both geocodes returned coordinates. The two
uses of the geocoder construct it one microtask apart, so a geocoder that cannot be constructed
for the start location cannot be constructed for the end location either. -/
theorem calculateRoute_call_order (s : AppState) (env : RouteEnv)
    (hpersist : env.geocodeStart = .constructorThrows → env.geocodeEnd = .constructorThrows) :
    ((calculateRoute s env).calls = [] ∨
      (calculateRoute s env).calls = [Call.geocode s.startLocation] ∨
      (calculateRoute s env).calls = [Call.geocode s.startLocation, Call.geocode s.endLocation] ∨
      ∃ body, (calculateRoute s env).calls =
        [Call.geocode s.startLocation, Call.geocode s.endLocation, Call.postRoute body]) ∧
    ((∀ loc, (geocodeAddress s.startLocation env.geocodeStart).2 ≠ .ok (some loc)) →
      (calculateRoute s env).calls = [] ∨
        (calculateRoute s env).calls = [Call.geocode s.startLocation]) ∧
    (∀ body, Call.postRoute body ∈ (calculateRoute s env).calls →
      ∃ a b, (geocodeAddress s.startLocation env.geocodeStart).2 = .ok (some a) ∧
        (geocodeAddress s.endLocation env.geocodeEnd).2 = .ok (some b)) := by
  refine ⟨?_, ?_, ?_⟩
  · rcases calculateRoute_calls_persistent s env hpersist with
      (h | h) | ⟨_, h | h | h⟩
    · exact Or.inl h
    · exact Or.inr (Or.inl h)
    · exact Or.inr (Or.inl h)
    · exact Or.inr (Or.inr (Or.inl h))
    · exact Or.inr (Or.inr (Or.inr h))
  · intro hfail
    rcases calculateRoute_calls_persistent s env hpersist with h | ⟨⟨a, ha⟩, _⟩
    · exact h
    · exact absurd ha (hfail a)
  · intro body hbody
    obtain ⟨a, b, _, _, ha, hb, _⟩ := (postRoute_mem_iff s env body).mp hbody
    exact ⟨a, b, ha, hb⟩

/-- C7 at two runs: the geocoder rejects the start location, and the geocoder cannot be
constructed at all; in neither is the end location geocoded. -/
theorem calculateRoute_call_order_witness :
    (calculateRoute sampleState startRejectedEnv).calls = [Call.geocode "Times Square"] ∧
      (calculateRoute sampleState noGeocoderEnv).calls = [] := by
  have h1 := (calculateRoute_call_order sampleState startRejectedEnv
    (fun h => by cases h)).2.1 (fun loc h => by cases h)
  have h2 := (calculateRoute_call_order sampleState noGeocoderEnv (fun _ => rfl)).2.1
    (fun loc h => by cases h)
  refine ⟨?_, ?_⟩
  · rcases h1 with h | h
    · exact absurd h (by decide)
    · exact h
  · rcases h2 with h | h
    · exact h
    · exact absurd h (by decide)

/-- C5 (evaluation at the diverging input): a response that is not OK and whose JSON body has
no `events` field empties the events state, and no error is recorded. -/
theorem fetchEvents_not_ok_response :
    sampleState.events = [riskyEvent] ∧
      (fetchEvents sampleState errorBodyResponse).state.events = [] ∧
      (fetchEvents sampleState errorBodyResponse).state.error = none := by
  decide

/-- With a loaded map that has bounds, a response whose body parses to an object sets the events
to the `events` of that object (the empty list when there is none), whatever `response.ok` is;
a fetch that raises, or a body that does not parse, leaves the events as they were. -/
theorem fetchEvents_events (s : AppState) (m : MapHandle) (bounds : LatLngBounds)
    (hm : s.map = some m) (hb : m.getBounds = some bounds) :
    (∀ ok data, (fetchEvents s (.response ok (.value data))).state.events =
        data.events.getD []) ∧
      (∀ msg, (fetchEvents s (.throws msg)).state.events = s.events) ∧
      (∀ ok msg, (fetchEvents s (.response ok (.throws msg))).state.events = s.events) := by
  refine ⟨?_, ?_, ?_⟩ <;> intros <;> simp [fetchEvents, hm, hb]

namespace Debounce

/-- Clearing the remembered timer empties the table of a tracked state. -/
theorem clearTimeout_pending_of_tracked (st : Debounce) (h : Tracked st) :
    (clearTimeout st.timeoutId st).pending = [] := by
  simp only [clearTimeout]
  rw [List.filter_eq_nil_iff]
  intro p hp
  simp [h p hp]

/-- A fresh effect is tracked. -/
theorem tracked_init (t0 k : Nat) : Tracked (init t0 k) := by
  intro p hp
  cases hp

/-- Moving the clock keeps a state tracked. -/
theorem tracked_advance (t : Nat) (st : Debounce) (h : Tracked st) : Tracked (advance t st) := by
  intro p hp
  exact h p (List.mem_filter.mp hp).1

/-- The listener on a tracked state: exactly one timer is pending afterwards, the new one. -/
theorem onBoundsChanged_listening (st : Debounce) (h : Tracked st) (hl : st.listening = true) :
    onBoundsChanged st =
      { st with nextId := st.nextId + 1, pending := [(st.nextId, st.now + 500)]
                timeoutId := some st.nextId } := by
  have hp := clearTimeout_pending_of_tracked st h
  unfold onBoundsChanged
  rw [if_pos hl]
  simp only [setTimeout, hp, List.nil_append]
  rfl

/-- The listener keeps a state tracked. -/
theorem tracked_onBoundsChanged (st : Debounce) (h : Tracked st) :
    Tracked (onBoundsChanged st) := by
  cases hl : st.listening with
  | false =>
    have : onBoundsChanged st = st := by simp [onBoundsChanged, hl]
    rw [this]
    exact h
  | true =>
    rw [onBoundsChanged_listening st h hl]
    intro p hp
    simp only [List.mem_singleton] at hp
    subst hp
    rfl

/-- After the cleanup of a tracked state no timer is pending. -/
theorem onCleanup_pending (api : Bool) (st : Debounce) (h : Tracked st) :
    (onCleanup api st).pending = [] := by
  have hp := clearTimeout_pending_of_tracked st h
  cases api <;> simpa [onCleanup] using hp

/-- The cleanup calls nothing. -/
theorem onCleanup_fetchCalls (api : Bool) (st : Debounce) :
    (onCleanup api st).fetchCalls = st.fetchCalls := by
  cases api <;> rfl

/-- The cleanup keeps a state tracked. -/
theorem tracked_onCleanup (api : Bool) (st : Debounce) (h : Tracked st) :
    Tracked (onCleanup api st) := by
  intro p hp
  rw [onCleanup_pending api st h] at hp
  cases hp

/-- Every input keeps a state tracked. -/
theorem tracked_step (st : Debounce) (i : Nat × Input) (h : Tracked st) : Tracked (step st i) := by
  unfold step
  split
  · exact tracked_onBoundsChanged _ (tracked_advance _ _ h)
  · exact tracked_onCleanup _ _ (tracked_advance _ _ h)

/-- Every sequence of inputs keeps a state tracked. -/
theorem tracked_run (inputs : List (Nat × Input)) (st : Debounce) (h : Tracked st) :
    Tracked (run st inputs) := by
  induction inputs generalizing st with
  | nil => exact h
  | cons i rest ih => exact ih (step st i) (tracked_step st i h)

/-- Running two sequences of inputs one after the other. -/
theorem run_append (st : Debounce) (xs ys : List (Nat × Input)) :
    run st (xs ++ ys) = run (run st xs) ys := by
  simp [run, List.foldl_append]

/-- Moving the clock when no timer is pending calls nothing. -/
theorem advance_of_no_pending (t : Nat) (st : Debounce) (h : st.pending = []) :
    (advance t st).fetchCalls = st.fetchCalls ∧ (advance t st).pending = [] ∧
      (advance t st).listening = st.listening := by
  simp [advance, h]

/-- A `bounds_changed` event that arrives before the pending timers are due: nothing fires, and
the one pending timer afterwards is due 500 ms later. -/
theorem step_boundsChanged (st : Debounce) (t : Nat) (h : Tracked st)
    (hl : st.listening = true) (hdue : ∀ p ∈ st.pending, t < p.2) (hnow : st.now ≤ t) :
    step st (t, Input.boundsChanged) =
      { now := t, nextId := st.nextId + 1, pending := [(st.nextId, t + 500)]
        timeoutId := some st.nextId, listening := true, fetchCalls := st.fetchCalls } := by
  have hadv : advance t st = { st with now := t } := by
    have h1 : st.pending.filter (fun p => decide (t < p.2)) = st.pending :=
      List.filter_eq_self.mpr (fun p hp => by simpa using hdue p hp)
    have h2 : st.pending.filter (fun p => decide (p.2 ≤ t)) = [] :=
      List.filter_eq_nil_iff.mpr (fun p hp => by simpa using hdue p hp)
    simp only [advance, h1, h2, List.map_nil, List.append_nil, max_eq_right hnow]
  have htr : Tracked { st with now := t } := h
  simp only [step, hadv]
  rw [onBoundsChanged_listening _ htr hl]
  simp [hl]

/-- The state after a burst whose gaps are all below 500 ms: nothing has fired, and the one
pending timer is due 500 ms after the last event. -/
theorem run_burst (gaps : List Nat) (t : Nat) (st : Debounce) (h : Tracked st)
    (hl : st.listening = true) (hdue : ∀ p ∈ st.pending, t < p.2) (hnow : st.now ≤ t)
    (hg : ∀ g ∈ gaps, g < 500) :
    ∃ id, run st (burst t gaps) =
      { now := t + gaps.sum, nextId := id + 1, pending := [(id, t + gaps.sum + 500)]
        timeoutId := some id, listening := true, fetchCalls := st.fetchCalls } := by
  induction gaps generalizing t st with
  | nil =>
    refine ⟨st.nextId, ?_⟩
    simp only [burst, arrivals, List.map_cons, List.map_nil, run, List.foldl_cons,
      List.foldl_nil, List.sum_nil, Nat.add_zero]
    exact step_boundsChanged st t h hl hdue hnow
  | cons g gs ih =>
    have hstep := step_boundsChanged st t h hl hdue hnow
    have hg0 : g < 500 := hg g (List.mem_cons_self g gs)
    have hrun : run st (burst t (g :: gs)) =
        run (step st (t, Input.boundsChanged)) (burst (t + g) gs) := rfl
    rw [hrun, hstep]
    obtain ⟨id, hid⟩ := ih (t + g)
      { now := t, nextId := st.nextId + 1, pending := [(st.nextId, t + 500)]
        timeoutId := some st.nextId, listening := true, fetchCalls := st.fetchCalls }
      (by intro p hp; simp only [List.mem_singleton] at hp; subst hp; rfl)
      rfl
      (by intro p hp; simp only [List.mem_singleton] at hp; subst hp; simp; omega)
      (by simp)
      (fun x hx => hg x (List.mem_cons_of_mem g hx))
    refine ⟨id, ?_⟩
    rw [hid]
    simp [List.sum_cons, Nat.add_assoc]

/-- Once the listener is removed and no timer is pending, no input calls `fetchEvents`. -/
theorem run_not_listening (inputs : List (Nat × Input)) (st : Debounce)
    (hp : st.pending = []) (hl : st.listening = false) :
    (run st inputs).fetchCalls = st.fetchCalls := by
  induction inputs generalizing st with
  | nil => rfl
  | cons i rest ih =>
    obtain ⟨h1, h2, h3⟩ := advance_of_no_pending i.1 st hp
    have hstep : (step st i).fetchCalls = st.fetchCalls ∧ (step st i).pending = [] ∧
        (step st i).listening = false := by
      unfold step
      split
      · have : onBoundsChanged (advance i.1 st) = advance i.1 st := by
          simp [onBoundsChanged, h3, hl]
        rw [this]
        exact ⟨h1, h2, h3.trans hl⟩
      · rename_i api _
        refine ⟨(onCleanup_fetchCalls _ _).trans h1, ?_, ?_⟩
        · cases api <;> simp [onCleanup, clearTimeout, h2]
        · cases api <;> simp [onCleanup, clearTimeout, h3, hl]
    have := ih (step st i) hstep.2.1 hstep.2.2
    exact this.trans hstep.1

/-- C8: on a loaded map, a burst of `bounds_changed` events in which each event comes less than
500 ms after the previous one makes `fetchEvents` run exactly once, 500 ms after the last event
and not before; once the cleanup of the effect has run, no timer that was pending fires, and when
the listener could be removed no later input makes `fetchEvents` run either. -/
theorem debounce_burst (t0 k t : Nat) (gaps : List Nat) (h0 : t0 ≤ t)
    (hg : ∀ g ∈ gaps, g < 500) :
    (∀ T, (advance T (run (init t0 k) (burst t gaps))).fetchCalls =
        if t + gaps.sum + 500 ≤ T then [t + gaps.sum + 500] else []) ∧
      (∀ (inputs : List (Nat × Input)) (tc : Nat) (api : Bool) (T : Nat),
        (advance T (run (init t0 k) (inputs ++ [(tc, Input.cleanup api)]))).fetchCalls =
          (run (init t0 k) (inputs ++ [(tc, Input.cleanup api)])).fetchCalls) ∧
      (∀ (inputs later : List (Nat × Input)) (tc : Nat),
        (run (init t0 k) (inputs ++ [(tc, Input.cleanup true)] ++ later)).fetchCalls =
          (run (init t0 k) (inputs ++ [(tc, Input.cleanup true)])).fetchCalls) := by
  refine ⟨?_, ?_, ?_⟩
  · intro T
    obtain ⟨id, hid⟩ := run_burst gaps t (init t0 k) (tracked_init t0 k) rfl
      (by intro p hp; cases hp) h0 hg
    rw [hid]
    by_cases hT : t + gaps.sum + 500 ≤ T
    · simp [advance, init, hT]
    · simp [advance, init, hT]
  · intro inputs tc api T
    rw [run_append]
    have htr := tracked_advance tc _ (tracked_run inputs (init t0 k) (tracked_init t0 k))
    have hp : (run (run (init t0 k) inputs) [(tc, Input.cleanup api)]).pending = [] :=
      onCleanup_pending api _ htr
    exact (advance_of_no_pending T _ hp).1
  · intro inputs later tc
    rw [run_append, run_append]
    have htr := tracked_advance tc _ (tracked_run inputs (init t0 k) (tracked_init t0 k))
    have hp : (run (run (init t0 k) inputs) [(tc, Input.cleanup true)]).pending = [] :=
      onCleanup_pending true _ htr
    exact run_not_listening later _ hp rfl

/-- C8 at a burst of four events at times 10, 110, 609 and 612: the one call is at 1112. -/
theorem debounce_burst_witness :
    (advance 2000 (run (init 0 7) (burst 10 [100, 499, 3]))).fetchCalls = [1112] ∧
      (advance 1111 (run (init 0 7) (burst 10 [100, 499, 3]))).fetchCalls = [] := by
  have h := (debounce_burst 0 7 10 [100, 499, 3] (by decide) (by decide)).1
  exact ⟨h 2000, h 1111⟩

end Debounce

end CivicPulse
